import Mathlib

/-!
Verification of the FocusMail retrieval-augmented classification core.

This development embeds the feedback store, the relevance retriever, the
classification engine fallback logic (src/services/gmailService.ts, second
half: the Gemini service), and the reclassification handler of the App
component.  Browser `localStorage` is modelled as a partial map from keys to
already-deserialised training logs (`none` covers both a missing key and
corrupt data, which the source maps to an empty log).  The language-model
client and the platform `JSON.parse` routine are external collaborators: the
model call outcome and the parse behaviour are passed in as explicit inputs.
TypeScript enum values are represented by their runtime string values.
-/

namespace FocusMail

/-- Runtime string values of the `ClassificationCategory` TypeScript enum. -/
def ClassificationCategory.PERSONAL : String := "Personal"

def ClassificationCategory.NOT_PERSONAL : String := "Not Personal"

def ClassificationCategory.UNCLASSIFIED : String := "Unclassified"

/-- `ContextExample` from src/types.ts. -/
structure ContextExample where
  sender : String
  subject : String
  classification : String
deriving DecidableEq, Repr

/-- `TrainingExample` from src/types.ts. -/
structure TrainingExample where
  subject : String
  sender : String
  snippet : String
  userClassification : String
  timestamp : Nat
deriving DecidableEq, Repr

/-- `EmailData` from src/types.ts.  Optional fields are `Option`s. -/
structure EmailData where
  id : String
  threadId : String
  snippet : String
  subject : String
  sender : String
  date : String
  body : Option String
  htmlBody : Option String
  classification : String
  originalClassification : Option String
  reclassifiedAt : Option Nat
  reasoning : Option String
  contextExample : Option ContextExample
  isProcessing : Option Bool
deriving DecidableEq, Repr

/-- Browser `localStorage`, restricted to the values this service stores:
a key either holds a (deserialised) training log or nothing.  `none` also
models corrupt data, which `getStoredTrainingData` maps to `[]`. -/
def Storage : Type := String → Option (List TrainingExample)

/-- A storage with no keys set. -/
def emptyStorage : Storage := fun _ => none

/-- `localStorage.setItem`, specialised to training-log values. -/
def localStorageSetItem (storage : Storage) (key : String)
    (value : List TrainingExample) : Storage :=
  fun k => if k = key then some value else storage k

/-- `const STORAGE_KEY = 'focusmail_training_data'` (the only key the
service ever reads or writes; it does not mention any user id). -/
def STORAGE_KEY : String := "focusmail_training_data"

/-- `getStoredTrainingData`: reads `STORAGE_KEY`; a missing or corrupt
value yields the empty log (the source wraps `JSON.parse` in try/catch). -/
def getStoredTrainingData (storage : Storage) : List TrainingExample :=
  match storage STORAGE_KEY with
  | some data => data
  | none => []

/-- The `newExample` object built inside `saveTrainingExample`;
`now` stands for `Date.now()`. -/
def newTrainingExample (email : EmailData) (correctCategory : String)
    (now : Nat) : TrainingExample :=
  { subject := email.subject
    sender := email.sender
    snippet := email.snippet
    userClassification := correctCategory
    timestamp := now }

/-- `saveTrainingExample`: filters out entries with the same raw
`subject` and `sender` strings, prepends the new entry, truncates to the
100 most recent, and writes the result back under `STORAGE_KEY`. -/
def saveTrainingExample (storage : Storage) (email : EmailData)
    (correctCategory : String) (now : Nat) : Storage :=
  let currentHistory := getStoredTrainingData storage
  let newExample := newTrainingExample email correctCategory now
  let uniqueHistory := currentHistory.filter fun h =>
    !(h.subject == newExample.subject && h.sender == newExample.sender)
  let updatedHistory := (newExample :: uniqueHistory).take 100
  localStorageSetItem storage STORAGE_KEY updatedHistory

/-- `deleteTrainingExample`: keeps exactly the entries whose timestamp
differs from the given one. -/
def deleteTrainingExample (storage : Storage) (timestamp : Nat) : Storage :=
  let currentHistory := getStoredTrainingData storage
  let updatedHistory := currentHistory.filter fun item =>
    item.timestamp != timestamp
  localStorageSetItem storage STORAGE_KEY updatedHistory

/-- Search for the JavaScript regex `<([^>]+)>`: the first `<` that is
followed by at least one character other than `>` and then a `>`; returns
the captured group.  When a `<` has no such closing `>`, the scan resumes
after it, exactly as the regex engine retries at the next position. -/
def findBracketed : List Char → Option (List Char)
  | [] => none
  | c :: rest =>
    if c = '<' then
      let inner := rest.takeWhile fun x => x ≠ '>'
      if inner ≠ [] ∧ inner.length < rest.length then some inner
      else findBracketed rest
    else findBracketed rest

/-- `extractEmailAddress`: the bracketed address, lowercased, if the regex
matches; otherwise the whole string, lowercased. -/
def extractEmailAddress (senderStr : String) : String :=
  match findBracketed senderStr.data with
  | some inner => String.mk (inner.map Char.toLower)
  | none => String.mk (senderStr.data.map Char.toLower)

/-- `calculateRelevanceScore`: 1 when the extracted addresses coincide,
else 0. -/
def calculateRelevanceScore (target : EmailData)
    (candidate : TrainingExample) : Nat :=
  if extractEmailAddress target.sender = extractEmailAddress candidate.sender
  then 1 else 0

/-- `getRelevantExamples`: keeps the entries with positive score, in log
order, truncated to `limit`. -/
def getRelevantExamples (email : EmailData)
    (history : List TrainingExample) (limit : Nat) : List TrainingExample :=
  if history.length = 0 then []
  else
    (history.filter fun ex =>
      calculateRelevanceScore email ex > 0).take limit

/-- Result record of `classifyEmail`.  The `category` field is the raw
string taken from the model response (the source performs no enum
validation on it). -/
structure ClassificationResult where
  category : String
  reasoning : String
  usedContext : Option ContextExample
deriving DecidableEq, Repr

/-- Outcome of the `ai.models.generateContent` call: either the client
throws (network or API error) or it returns a response whose `text` field
may be absent. -/
inductive ModelOutcome where
  | throws : ModelOutcome
  | returns (text : Option String) : ModelOutcome
deriving DecidableEq, Repr

/-- Behaviour of the platform `JSON.parse` on one input: it either throws
on malformed input, or yields a value whose `category` and `reasoning`
member accesses give a string or `undefined`. -/
inductive JsParse where
  | throwErr : JsParse
  | obj (category : Option String) (reasoning : Option String) : JsParse
deriving DecidableEq, Repr

/-- JavaScript `x || d` for a string-or-undefined `x`: `undefined` and the
empty string are falsy. -/
def jsOrString (v : Option String) (d : String) : String :=
  match v with
  | none => d
  | some s => if s = "" then d else s

/-- `classifyEmail`: loads the (single, shared) training log, retrieves up
to 5 same-sender examples, then inspects the model outcome.  A thrown
model call or a `JSON.parse` failure both land in the single catch branch,
which returns `Unclassified` with the service-error reasoning; a parsed
object with a falsy `category` falls back to `Not Personal`. -/
def classifyEmail (storage : Storage) (email : EmailData)
    (outcome : ModelOutcome) (jsonParse : String → JsParse) :
    ClassificationResult :=
  let allHistory := getStoredTrainingData storage
  let relevantExamples := getRelevantExamples email allHistory 5
  let topExample := relevantExamples.head?
  match outcome with
  | ModelOutcome.throws =>
    { category := ClassificationCategory.UNCLASSIFIED
      reasoning := "Error connecting to AI service."
      usedContext := none }
  | ModelOutcome.returns text =>
    match jsonParse (jsOrString text "{}") with
    | JsParse.throwErr =>
      { category := ClassificationCategory.UNCLASSIFIED
        reasoning := "Error connecting to AI service."
        usedContext := none }
    | JsParse.obj category reasoning =>
      { category := jsOrString category ClassificationCategory.NOT_PERSONAL
        reasoning := jsOrString reasoning "AI could not determine reason."
        usedContext := topExample.map fun t =>
          { sender := t.sender
            subject := t.subject
            classification := t.userClassification } }

/-- `handleMoveEmail` from the App component: the optimistic list update
(every message whose `id` equals the target's gets the new category, a
reclassification timestamp and the fixed reasoning marker; every other
message is returned as is) together with the `saveTrainingExample` call. -/
def handleMoveEmail (emails : List EmailData) (storage : Storage)
    (email : EmailData) (newCategory : String) (now : Nat) :
    List EmailData × Storage :=
  let updatedEmails := emails.map fun e =>
    if e.id != email.id then e
    else { e with
            classification := newCategory
            reclassifiedAt := some now
            reasoning := some "Manually reclassified by you." }
  (updatedEmails, saveTrainingExample storage email newCategory now)

/-! ## Concrete fixtures used by witnesses and counterexamples -/

/-- Target message with bare sender `a@x.com` (scenario of claim C5). -/
def emailAX : EmailData :=
  { id := "t1", threadId := "t1", snippet := "", subject := "T"
    sender := "a@x.com", date := "", body := none, htmlBody := none
    classification := "Unclassified", originalClassification := none
    reclassifiedAt := none, reasoning := none, contextExample := none
    isProcessing := none }

/-- Feedback log of the C5 scenario: two entries from `a@x.com`,
newest (ts 5) first. -/
def logC5 : List TrainingExample :=
  [{ subject := "S1", sender := "a@x.com", snippet := ""
     userClassification := "Personal", timestamp := 5 },
   { subject := "S2", sender := "a@x.com", snippet := ""
     userClassification := "Not Personal", timestamp := 3 }]

/-- Feedback log with entries at timestamps 3 and 5 (claim C9 scenario). -/
def logC9 : List TrainingExample :=
  [{ subject := "a", sender := "s", snippet := ""
     userClassification := "Personal", timestamp := 3 },
   { subject := "b", sender := "s", snippet := ""
     userClassification := "Personal", timestamp := 5 }]

/-- Storage holding `logC9` under the service's key. -/
def storeC9 : Storage := fun k => if k = STORAGE_KEY then some logC9 else none

/-- `JSON.parse` behaviour on the inputs touched by the C2 counterexample:
it throws on the malformed text `"not json"` and yields an empty object
elsewhere (in particular on `"{}"`). -/
def parseThrowOnBad : String → JsParse := fun s =>
  if s = "not json" then JsParse.throwErr else JsParse.obj none none

/-- `JSON.parse` behaviour yielding an object with neither field, as on
the input `"{}"`. -/
def parseEmptyObject : String → JsParse := fun _ => JsParse.obj none none

/-- `JSON.parse` behaviour yielding an object with a `reasoning` member
but no `category`, as a compliant parse of a response lacking the
required field. -/
def parseReasoningOnly : String → JsParse := fun _ =>
  JsParse.obj none (some "foo")

/-- First save of the C3 counterexample: display name `Robert`, address
`BOB@x.com` in brackets. -/
def emailRobert : EmailData :=
  { id := "e1", threadId := "e1", snippet := "first", subject := "S"
    sender := "Robert <BOB@x.com>", date := "", body := none
    htmlBody := none, classification := "Unclassified"
    originalClassification := none, reclassifiedAt := none
    reasoning := none, contextExample := none, isProcessing := none }

/-- Second save of the C3 counterexample: display name `Bob`, address
`bob@x.com` — the same normalized sender, a different raw string. -/
def emailBob : EmailData :=
  { id := "e2", threadId := "e2", snippet := "second", subject := "S"
    sender := "Bob <bob@x.com>", date := "", body := none
    htmlBody := none, classification := "Unclassified"
    originalClassification := none, reclassifiedAt := none
    reasoning := none, contextExample := none, isProcessing := none }

/-- Same raw sender and subject as `emailRobert`, different snippet (C3
witness). -/
def emailRobertAgain : EmailData :=
  { id := "e3", threadId := "e3", snippet := "second time", subject := "S"
    sender := "Robert <BOB@x.com>", date := "", body := none
    htmlBody := none, classification := "Unclassified"
    originalClassification := none, reclassifiedAt := none
    reasoning := none, contextExample := none, isProcessing := none }

/-- Email whose reclassification is saved in the C1 evaluation. -/
def emailCarolSave : EmailData :=
  { id := "m1", threadId := "m1", snippet := "see you", subject := "Dinner"
    sender := "Carol <carol@z.com>", date := "", body := none
    htmlBody := none, classification := "Unclassified"
    originalClassification := none, reclassifiedAt := none
    reasoning := none, contextExample := none, isProcessing := none }

/-- Email later classified in the C1 evaluation: same normalized sender as
`emailCarolSave` (`carol@z.com`, case-insensitively). -/
def emailCarolTarget : EmailData :=
  { id := "m2", threadId := "m2", snippet := "lunch?", subject := "Lunch"
    sender := "Carol Smith <CAROL@Z.com>", date := "", body := none
    htmlBody := none, classification := "Unclassified"
    originalClassification := none, reclassifiedAt := none
    reasoning := none, contextExample := none, isProcessing := none }

/-! ## Helper lemmas -/

/-- The retriever is exactly a normalized-sender-equality filter followed
by a `limit` truncation. -/
lemma getRelevantExamples_eq (email : EmailData)
    (history : List TrainingExample) (limit : Nat) :
    getRelevantExamples email history limit
      = (history.filter fun ex =>
          extractEmailAddress email.sender == extractEmailAddress ex.sender).take
          limit := by
  unfold getRelevantExamples
  by_cases h : history.length = 0
  · have hnil : history = [] := List.length_eq_zero.mp h
    subst hnil; simp
  · rw [if_neg h]
    congr 1
    apply List.filter_congr
    intro a _
    by_cases hx :
        extractEmailAddress email.sender = extractEmailAddress a.sender <;>
      simp [calculateRelevanceScore, hx]

/-- Counting: entries kept by a negated filter plus entries counted by the
predicate give back the length. -/
lemma countP_not_eq {α : Type} (p : α → Bool) (l : List α) :
    (l.filter fun a => !(p a)).length + l.countP p = l.length := by
  induction l with
  | nil => simp
  | cons a tl ih =>
    by_cases h : p a <;> simp [List.filter_cons, List.countP_cons, h] <;> omega

/-- Loading right after a save yields the freshly written log. -/
lemma getStored_after_save (store : Storage) (email : EmailData)
    (cat : String) (now : Nat) :
    getStoredTrainingData (saveTrainingExample store email cat now)
      = (newTrainingExample email cat now ::
          (getStoredTrainingData store).filter fun h =>
            !(h.subject == email.subject && h.sender == email.sender)).take
          100 := by
  simp [saveTrainingExample, getStoredTrainingData, localStorageSetItem,
    newTrainingExample]

/-- Loading right after a delete yields the filtered log. -/
lemma getStored_after_delete (store : Storage) (t : Nat) :
    getStoredTrainingData (deleteTrainingExample store t)
      = (getStoredTrainingData store).filter fun item =>
          item.timestamp != t := by
  simp [deleteTrainingExample, getStoredTrainingData, localStorageSetItem]

/-! ## Claims -/

/-- C4: for every target message and feedback log, `getRelevantExamples`
returns exactly the entries whose normalized sender equals the target's
normalized sender (up to the `limit` truncation), where normalization
extracts the bracketed address if present and otherwise lowercases the raw
string; in particular `"Bob <bob@x.com>"` matches `"Robert <bob@x.com>"`
but not `"Bob <bob@y.com>"`, so display names and subjects play no role. -/
theorem claim_C4 :
    (∀ (email : EmailData) (history : List TrainingExample) (limit : Nat),
        getRelevantExamples email history limit
          = (history.filter fun ex =>
              extractEmailAddress email.sender
                == extractEmailAddress ex.sender).take limit)
    ∧ extractEmailAddress "Bob <bob@x.com>"
        = extractEmailAddress "Robert <bob@x.com>"
    ∧ extractEmailAddress "Bob <bob@x.com>"
        ≠ extractEmailAddress "Bob <bob@y.com>" :=
  ⟨getRelevantExamples_eq, by decide, by decide⟩

/-- C5: retrieval returns at most `limit` entries and is a sublist of the
underlying log (newest-first order preserved, no re-sorting); on the log
`[S1 at ts 5, S2 at ts 3]` from `a@x.com` with limit 1 it returns exactly
the `S1` entry. -/
theorem claim_C5 :
    (∀ (email : EmailData) (history : List TrainingExample) (limit : Nat),
        (getRelevantExamples email history limit).length ≤ limit
        ∧ (getRelevantExamples email history limit).Sublist history)
    ∧ getRelevantExamples emailAX logC5 1
        = [{ subject := "S1", sender := "a@x.com", snippet := ""
             userClassification := "Personal", timestamp := 5 }] := by
  constructor
  · intro email history limit
    rw [getRelevantExamples_eq]
    constructor
    · rw [List.length_take]; exact min_le_left _ _
    · exact (List.take_sublist _ _).trans (List.filter_sublist _)
  · decide

/-- C6: a save followed immediately by a load returns a log headed by the
just-saved entry whose length is
`min 100 (priorLength - duplicatesRemoved + 1)`, where `duplicatesRemoved`
counts the prior entries matching the new entry's duplicate key (raw
subject and raw sender). -/
theorem claim_C6 (store : Storage) (email : EmailData) (cat : String)
    (now : Nat) :
    (getStoredTrainingData (saveTrainingExample store email cat now)).head?
      = some (newTrainingExample email cat now)
    ∧ (getStoredTrainingData (saveTrainingExample store email cat now)).length
      = min 100 ((getStoredTrainingData store).length
          - (getStoredTrainingData store).countP
              (fun h => h.subject == email.subject
                && h.sender == email.sender) + 1) := by
  rw [getStored_after_save]
  constructor
  · have h100 : (100 : Nat) = 99 + 1 := rfl
    rw [h100, List.take_succ_cons]
    rfl
  · rw [List.length_take, List.length_cons]
    have hc := countP_not_eq
      (fun h => h.subject == email.subject && h.sender == email.sender)
      (getStoredTrainingData store)
    omega

/-- C9: deleting a timestamp removes exactly the entries bearing it and
leaves the rest unchanged in order; deleting an absent timestamp is a
no-op, and deleting a timestamp held by exactly one entry shrinks the log
by exactly one. -/
theorem claim_C9 (store : Storage) (t : Nat) :
    getStoredTrainingData (deleteTrainingExample store t)
      = ((getStoredTrainingData store).filter fun item =>
          item.timestamp != t)
    ∧ ((getStoredTrainingData store).countP
          (fun item => item.timestamp == t) = 0 →
        getStoredTrainingData (deleteTrainingExample store t)
          = getStoredTrainingData store)
    ∧ ((getStoredTrainingData store).countP
          (fun item => item.timestamp == t) = 1 →
        (getStoredTrainingData (deleteTrainingExample store t)).length + 1
          = (getStoredTrainingData store).length) := by
  refine ⟨getStored_after_delete store t, ?_, ?_⟩
  · intro h0
    rw [getStored_after_delete]
    apply List.filter_eq_self.mpr
    intro a ha
    have hz := List.countP_eq_zero.mp h0 a ha
    simpa using hz
  · intro h1
    rw [getStored_after_delete]
    have hc := countP_not_eq (fun item => item.timestamp == t)
      (getStoredTrainingData store)
    have hb : ((getStoredTrainingData store).filter fun item =>
        item.timestamp != t)
        = ((getStoredTrainingData store).filter fun a =>
            !(a.timestamp == t)) := rfl
    rw [hb]
    omega

/-- C2 counterexample: on the unparseable model text `"not json"` (which
`JSON.parse` rejects), `classifyEmail` lands in the catch branch and
returns category `Unclassified`, not the claimed `Not Personal`. -/
theorem claim_C2_counterexample :
    (classifyEmail emptyStorage emailAX
        (ModelOutcome.returns (some "not json")) parseThrowOnBad).category
      = ClassificationCategory.UNCLASSIFIED
    ∧ (classifyEmail emptyStorage emailAX
        (ModelOutcome.returns (some "not json")) parseThrowOnBad).category
      ≠ ClassificationCategory.NOT_PERSONAL := by
  constructor <;> decide

/-- C2 amended: a model response that parses to an object whose `category`
member is absent or empty yields the `Not Personal` fallback, with the
model's own `reasoning` string when that member is present and nonempty
and the generic `"AI could not determine reason."` otherwise; a response
whose text `JSON.parse` rejects raises internally and is caught by the
service-error branch, yielding `Unclassified` with the service-error
reasoning; in both cases a result is returned to the caller rather than
an exception. -/
theorem claim_C2_amended (storage : Storage) (email : EmailData)
    (text : Option String) (jsonParse : String → JsParse) :
    (∀ c r, jsonParse (jsOrString text "{}") = JsParse.obj c r →
        (c = none ∨ c = some "") →
        (classifyEmail storage email (ModelOutcome.returns text)
            jsonParse).category = ClassificationCategory.NOT_PERSONAL
        ∧ ((r = none ∨ r = some "") →
            (classifyEmail storage email (ModelOutcome.returns text)
                jsonParse).reasoning = "AI could not determine reason.")
        ∧ (∀ s, r = some s → ¬(s = "") →
            (classifyEmail storage email (ModelOutcome.returns text)
                jsonParse).reasoning = s))
    ∧ (jsonParse (jsOrString text "{}") = JsParse.throwErr →
        (classifyEmail storage email (ModelOutcome.returns text)
            jsonParse).category = ClassificationCategory.UNCLASSIFIED
        ∧ (classifyEmail storage email (ModelOutcome.returns text)
            jsonParse).reasoning = "Error connecting to AI service.") := by
  constructor
  · intro c r hp hc
    have hcat : (classifyEmail storage email (ModelOutcome.returns text)
        jsonParse).category
        = jsOrString c ClassificationCategory.NOT_PERSONAL := by
      simp [classifyEmail, hp]
    have hreas : (classifyEmail storage email (ModelOutcome.returns text)
        jsonParse).reasoning
        = jsOrString r "AI could not determine reason." := by
      simp [classifyEmail, hp]
    refine ⟨?_, ?_, ?_⟩
    · rw [hcat]
      rcases hc with h | h <;> subst h <;> simp [jsOrString]
    · intro hr
      rw [hreas]
      rcases hr with h | h <;> subst h <;> simp [jsOrString]
    · intro s hr hs
      subst hr
      rw [hreas]
      simp [jsOrString, hs]
  · intro hp
    constructor <;> simp [classifyEmail, hp]

/-- C2 witness: with an absent response text (parsed as the empty object,
hence no category field) the fallback category `Not Personal` and the
generic reasoning are returned, and with a parsed object carrying only a
nonempty `reasoning` member the fallback category is paired with the
model's own reasoning. -/
theorem claim_C2_witness :
    (classifyEmail emptyStorage emailAX (ModelOutcome.returns none)
        parseEmptyObject).category = ClassificationCategory.NOT_PERSONAL
    ∧ (classifyEmail emptyStorage emailAX (ModelOutcome.returns none)
        parseEmptyObject).reasoning = "AI could not determine reason."
    ∧ (classifyEmail emptyStorage emailAX (ModelOutcome.returns none)
        parseReasoningOnly).category = ClassificationCategory.NOT_PERSONAL
    ∧ (classifyEmail emptyStorage emailAX (ModelOutcome.returns none)
        parseReasoningOnly).reasoning = "foo" := by
  have h1 := (claim_C2_amended emptyStorage emailAX none parseEmptyObject).1
    none none rfl (Or.inl rfl)
  have h2 := (claim_C2_amended emptyStorage emailAX none parseReasoningOnly).1
    none (some "foo") rfl (Or.inl rfl)
  exact ⟨h1.1, h1.2.1 (Or.inl rfl), h2.1,
    h2.2.2 "foo" rfl (by decide)⟩

/-- C8 counterexample: when the model client throws, the reasoning string
carries a trailing period, so it is not exactly
`"Error connecting to AI service"` as the claim states. -/
theorem claim_C8_counterexample :
    (classifyEmail emptyStorage emailAX ModelOutcome.throws
        parseEmptyObject).reasoning ≠ "Error connecting to AI service" := by
  decide

/-- C8 amended: whenever the model call itself throws, `classifyEmail`
returns category `Unclassified` with reasoning exactly
`"Error connecting to AI service."` (with a trailing period) and no used
context, never propagating the exception; this category is distinct from
the missing-field fallback `Not Personal`. -/
theorem claim_C8_amended (storage : Storage) (email : EmailData)
    (jsonParse : String → JsParse) :
    classifyEmail storage email ModelOutcome.throws jsonParse
      = { category := ClassificationCategory.UNCLASSIFIED
          reasoning := "Error connecting to AI service."
          usedContext := none }
    ∧ ClassificationCategory.UNCLASSIFIED
        ≠ ClassificationCategory.NOT_PERSONAL :=
  ⟨rfl, by decide⟩

/-- C3 counterexample: two saves whose senders normalize to the same
address (`bob@x.com`, case-insensitively) but differ as raw strings leave
two entries for the (normalized-sender, subject) key, because the
duplicate filter compares raw sender strings only. -/
theorem claim_C3_counterexample :
    extractEmailAddress "Robert <BOB@x.com>"
      = extractEmailAddress "Bob <bob@x.com>"
    ∧ (getStoredTrainingData (saveTrainingExample
          (saveTrainingExample emptyStorage emailRobert "Personal" 1)
          emailBob "Not Personal" 2)).countP
        (fun h =>
          extractEmailAddress h.sender
              == extractEmailAddress "Bob <bob@x.com>"
            && h.subject == "S") = 2 := by
  constructor <;> decide

/-- C3 amended: saving two entries with identical raw sender strings and
identical subjects (the code's duplicate key) leaves exactly one entry for
that raw key — counted with either save's key — and the head of the log is
the second entry, bearing its classification and timestamp. -/
theorem claim_C3_amended (store : Storage) (email1 email2 : EmailData)
    (cat1 cat2 : String) (t1 t2 : Nat)
    (hsub : email1.subject = email2.subject)
    (hsnd : email1.sender = email2.sender) :
    (getStoredTrainingData (saveTrainingExample
        (saveTrainingExample store email1 cat1 t1) email2 cat2 t2)).countP
      (fun h => h.subject == email2.subject && h.sender == email2.sender) = 1
    ∧ (getStoredTrainingData (saveTrainingExample
        (saveTrainingExample store email1 cat1 t1) email2 cat2 t2)).countP
      (fun h => h.subject == email1.subject && h.sender == email1.sender) = 1
    ∧ (getStoredTrainingData (saveTrainingExample
        (saveTrainingExample store email1 cat1 t1) email2 cat2 t2)).head?
      = some (newTrainingExample email2 cat2 t2) := by
  have hone :
      (getStoredTrainingData (saveTrainingExample
          (saveTrainingExample store email1 cat1 t1) email2 cat2 t2)).countP
        (fun h => h.subject == email2.subject && h.sender == email2.sender)
        = 1 := by
    rw [getStored_after_save]
    have h100 : (100 : Nat) = 99 + 1 := rfl
    rw [h100, List.take_succ_cons, List.countP_cons]
    have hz : List.countP
        (fun h => h.subject == email2.subject && h.sender == email2.sender)
        (List.take 99 ((getStoredTrainingData
            (saveTrainingExample store email1 cat1 t1)).filter fun h =>
              !(h.subject == email2.subject && h.sender == email2.sender)))
        = 0 := by
      apply List.countP_eq_zero.mpr
      intro a ha
      have hf := List.mem_of_mem_take ha
      have hp := List.of_mem_filter hf
      simp only [Bool.not_eq_true'] at hp
      simp [hp]
    rw [hz]
    simp [newTrainingExample]
  refine ⟨hone, ?_, ?_⟩
  · rw [hsub, hsnd]; exact hone
  · rw [getStored_after_save]
    have h100 : (100 : Nat) = 99 + 1 := rfl
    rw [h100, List.take_succ_cons]
    rfl

/-- C3 witness: saving the same sender and subject twice (snippets and
categories differing) leaves exactly one entry for that key, headed by the
second save's classification and timestamp. -/
theorem claim_C3_witness :
    (getStoredTrainingData (saveTrainingExample
        (saveTrainingExample emptyStorage emailRobert "Personal" 1)
        emailRobertAgain "Not Personal" 2)).countP
      (fun h => h.subject == emailRobertAgain.subject
        && h.sender == emailRobertAgain.sender) = 1
    ∧ (getStoredTrainingData (saveTrainingExample
        (saveTrainingExample emptyStorage emailRobert "Personal" 1)
        emailRobertAgain "Not Personal" 2)).head?
      = some (newTrainingExample emailRobertAgain "Not Personal" 2) := by
  have h := claim_C3_amended emptyStorage emailRobert emailRobertAgain
    "Personal" "Not Personal" 1 2 rfl rfl
  exact ⟨h.1, h.2.2⟩

/-- C1 at the failing input: the service persists under the fixed shared
key with no user scoping, so a correction saved during one user's session
is returned by the very next `getStoredTrainingData` call and changes the
`classifyEmail` result (its used context) for any other user of the same
browser storage — the claimed noninterference fails. -/
theorem claim_C1_eval :
    getStoredTrainingData
        (saveTrainingExample emptyStorage emailCarolSave "Personal" 5)
      = [newTrainingExample emailCarolSave "Personal" 5]
    ∧ (classifyEmail
          (saveTrainingExample emptyStorage emailCarolSave "Personal" 5)
          emailCarolTarget (ModelOutcome.returns none)
          parseEmptyObject).usedContext
      ≠ (classifyEmail emptyStorage emailCarolTarget
          (ModelOutcome.returns none) parseEmptyObject).usedContext := by
  constructor <;> decide

/-- C9 witness: on a log with single entries at timestamps 3 and 5,
deleting timestamp 3 shrinks the log length by exactly one. -/
theorem claim_C9_witness :
    (getStoredTrainingData (deleteTrainingExample storeC9 3)).length + 1
      = (getStoredTrainingData storeC9).length :=
  (claim_C9 storeC9 3).2.2 (by decide)

/-- In a strictly newest-first log, the last entry bears the minimal
timestamp. -/
lemma getLast_timestamp_min :
    ∀ (l : List TrainingExample) (hne : l ≠ []),
      List.Sorted (fun a b => b.timestamp < a.timestamp) l →
      ∀ x ∈ l, (l.getLast hne).timestamp ≤ x.timestamp := by
  intro l
  induction l with
  | nil => intro hne; cases hne rfl
  | cons a tl ih =>
    intro hne hs x hx
    cases tl with
    | nil =>
      have hxa : x = a := by simpa using hx
      subst hxa
      simp [List.getLast]
    | cons b tl2 =>
      have htl : (b :: tl2) ≠ [] := by simp
      have hgl : (a :: b :: tl2).getLast hne = (b :: tl2).getLast htl :=
        List.getLast_cons htl
      have hpair := List.sorted_cons.mp hs
      rcases List.mem_cons.mp hx with h | h
      · subst h
        have hmem := List.getLast_mem htl
        have hlt := hpair.1 _ hmem
        rw [hgl]
        omega
      · rw [hgl]
        exact ih htl hpair.2 x h

/-- Membership in a take exposes an index below the truncation bound. -/
lemma mem_take_index {α : Type} :
    ∀ (l : List α) (n : Nat) (x : α), x ∈ l.take n →
      ∃ i, i < n ∧ ∃ hi : i < l.length, l.get ⟨i, hi⟩ = x := by
  intro l
  induction l with
  | nil => intro n x hx; simp at hx
  | cons a tl ih =>
    intro n x hx
    cases n with
    | zero => simp at hx
    | succ m =>
      rw [List.take_succ_cons] at hx
      rcases List.mem_cons.mp hx with h | h
      · exact ⟨0, by omega, by simp, by simpa using h.symm⟩
      · obtain ⟨i, him, hi, hget⟩ := ih m x h
        refine ⟨i + 1, by omega, by simpa using Nat.succ_lt_succ hi, ?_⟩
        simpa [List.get_cons_succ] using hget

/-- C7: on a persisted 100-entry log (newest-first: timestamps strictly
decreasing along the list, the persisted-log invariant) saving an entry
whose duplicate key matches none of them yields a log of exactly 100
entries from which the entry bearing the oldest timestamp among the
original 100 (the last entry) is absent. -/
theorem claim_C7 (store : Storage) (email : EmailData) (cat : String)
    (now : Nat) (log : List TrainingExample)
    (hlog : getStoredTrainingData store = log)
    (hlen : log.length = 100)
    (hne : log ≠ [])
    (hsorted : List.Sorted (fun a b => b.timestamp < a.timestamp) log)
    (hkey : ∀ h ∈ log,
      ¬(h.subject = email.subject ∧ h.sender = email.sender)) :
    (getStoredTrainingData
        (saveTrainingExample store email cat now)).length = 100
    ∧ (∀ x ∈ log, (log.getLast hne).timestamp ≤ x.timestamp)
    ∧ log.getLast hne
        ∉ getStoredTrainingData (saveTrainingExample store email cat now) := by
  have hp : List.Pairwise (fun a b => b.timestamp < a.timestamp) log := hsorted
  have hfilter : (log.filter fun h =>
      !(h.subject == email.subject && h.sender == email.sender)) = log := by
    apply List.filter_eq_self.mpr
    intro a ha
    have hk := hkey a ha
    simpa using not_and_or.mp hk
  have hres : getStoredTrainingData (saveTrainingExample store email cat now)
      = newTrainingExample email cat now :: log.take 99 := by
    rw [getStored_after_save, hlog, hfilter]
    have h100 : (100 : Nat) = 99 + 1 := rfl
    rw [h100, List.take_succ_cons]
  refine ⟨?_, getLast_timestamp_min log hne hsorted, ?_⟩
  · rw [hres, List.length_cons, List.length_take, hlen]
    decide
  · rw [hres]
    intro hmem
    rcases List.mem_cons.mp hmem with heq | htake
    · have hmem2 := List.getLast_mem hne
      exact hkey _ hmem2 ⟨by rw [heq]; rfl, by rw [heq]; rfl⟩
    · obtain ⟨i, hin, hilen, hget⟩ := mem_take_index log 99 _ htake
      have h99 : 99 < log.length := by omega
      have hg : log[i] = log.getLast hne := hget
      have hlast : log.getLast hne = log[99] := by
        rw [List.getLast_eq_getElem]
        congr 1
        omega
      have hlt := List.pairwise_iff_getElem.mp hp i 99 hilen h99 hin
      rw [hg.trans hlast] at hlt
      exact absurd hlt (lt_irrefl _)

/-- A full 100-entry log, newest first (timestamps 100 down to 1), used by
the C7 witness. -/
def logC7 : List TrainingExample :=
  (List.range 100).map fun i =>
    { subject := "", sender := "s", snippet := ""
      userClassification := "Personal", timestamp := 100 - i }

/-- Storage holding `logC7` under the service's key. -/
def storeC7 : Storage := fun k => if k = STORAGE_KEY then some logC7 else none

/-- The C7 witness log is nonempty. -/
lemma logC7_ne_nil : logC7 ≠ [] := by simp [logC7]

/-- Fresh message for the C7 witness, matching no stored duplicate key. -/
def emailC7 : EmailData :=
  { id := "w7", threadId := "w7", snippet := "", subject := "X"
    sender := "s2", date := "", body := none, htmlBody := none
    classification := "Unclassified", originalClassification := none
    reclassifiedAt := none, reasoning := none, contextExample := none
    isProcessing := none }

/-- C7 witness: saving a new-key entry onto the concrete full log keeps
the length at 100 and evicts the last (oldest-timestamp) entry. -/
theorem claim_C7_witness :
    (getStoredTrainingData
        (saveTrainingExample storeC7 emailC7 "Personal" 1000)).length = 100
    ∧ logC7.getLast logC7_ne_nil
        ∉ getStoredTrainingData
            (saveTrainingExample storeC7 emailC7 "Personal" 1000) := by
  have h := claim_C7 storeC7 emailC7 "Personal" 1000 logC7 rfl
    (by simp [logC7]) logC7_ne_nil (by decide) (by decide)
  exact ⟨h.1, h.2.2⟩

/-- C10: the reclassification handler touches only the messages whose id
equals the target's: those get the new category, the reclassification
timestamp and the fixed reasoning marker, with every other field carried
over; messages with a different id are returned unchanged, in place. -/
theorem claim_C10 (emails : List EmailData) (storage : Storage)
    (email : EmailData) (newCategory : String) (now : Nat) :
    ((handleMoveEmail emails storage email newCategory now).1).length
      = emails.length
    ∧ (∀ (i : Nat) (e : EmailData), emails[i]? = some e →
        ¬(e.id = email.id) →
        ((handleMoveEmail emails storage email newCategory now).1)[i]?
          = some e)
    ∧ (∀ (i : Nat) (e : EmailData), emails[i]? = some e →
        e.id = email.id →
        ((handleMoveEmail emails storage email newCategory now).1)[i]?
          = some { e with
                    classification := newCategory
                    reclassifiedAt := some now
                    reasoning := some "Manually reclassified by you." }) := by
  refine ⟨by simp [handleMoveEmail], ?_, ?_⟩
  · intro i e hi hneq
    simp [handleMoveEmail, hi, hneq]
  · intro i e hi heq
    simp [handleMoveEmail, hi, heq]

/-- Untouched message of the C10 witness. -/
def emailA10 : EmailData :=
  { id := "a", threadId := "a", snippet := "sa", subject := "A"
    sender := "alice <a@x.com>", date := "", body := none, htmlBody := none
    classification := "Personal", originalClassification := some "Personal"
    reclassifiedAt := none, reasoning := some "r", contextExample := none
    isProcessing := some false }

/-- Reclassified message of the C10 witness. -/
def emailB10 : EmailData :=
  { id := "b", threadId := "b", snippet := "sb", subject := "B"
    sender := "bob <b@x.com>", date := "", body := some "body"
    htmlBody := none, classification := "Not Personal"
    originalClassification := some "Not Personal", reclassifiedAt := none
    reasoning := some "automated", contextExample := none
    isProcessing := some false }

/-- Two-message inbox of the C10 witness. -/
def emailsC10 : List EmailData := [emailA10, emailB10]

/-- C10 witness: reclassifying the id-`b` message leaves the id-`a`
message untouched and rewrites exactly the three fields of the id-`b`
message. -/
theorem claim_C10_witness :
    ((handleMoveEmail emailsC10 emptyStorage emailB10 "Personal" 77).1)[0]?
      = some emailA10
    ∧ ((handleMoveEmail emailsC10 emptyStorage emailB10 "Personal" 77).1)[1]?
      = some { emailB10 with
                classification := "Personal"
                reclassifiedAt := some 77
                reasoning := some "Manually reclassified by you." } := by
  have h := claim_C10 emailsC10 emptyStorage emailB10 "Personal" 77
  exact ⟨h.2.1 0 emailA10 rfl (by decide), h.2.2 1 emailB10 rfl rfl⟩

end FocusMail
